import Mathlib

/-!
Verification development for the Report-IT repository: a Cloudflare Worker
(worker source, first unnamed part) backed by a D1/SQLite database
(schema.sql).  The worker implements an incident-report CRUD API with
evidence-image attachment and aggregate analytics.

The JavaScript handlers are shallowly embedded as pure Lean functions over an
explicit database state.  Conventions used throughout:

 - SQL TEXT columns are Lean `String`; timestamps are `Nat` minutes since an
   epoch.  ISO-8601 timestamp strings compare lexicographically exactly as
   chronological time under SQLite, so ORDER BY created_at, the
   `DATE(now, -N days)` window and the julianday difference
   `(julianday(updated_at) - julianday(created_at)) * 24 * 60` (minutes) are
   modelled on this numeric clock (day = t / 1440, hour = t % 1440 / 60).
 - JavaScript string truthiness (empty string falsy, missing value falsy) is
   `strTruthy` / `optTruthy`; `parseInt(x) || d` is `jsNumOr (jsParseInt x) d`.
 - A handler that can throw returns an `Outcome`; the try/catch blocks that
   re-throw with a contextual message are `JsError.rethrown`.  A free
   identifier (the worker references `ctx` and `env` inside helpers where only
   `request`, `db`, `r2Bucket` are parameters) evaluates to a JavaScript
   ReferenceError, modelled by `JsError.referenceError`.
 - The top level `fetch` catch turns any thrown error into a 500 JSON
   response: `finishOutcome`.
 - Nondeterministic inputs of the source (`Date.now()`, `Math.random()` id
   suffixes, the current time) are explicit parameters.
-/

/-! ## JavaScript-style primitives -/

/-- Truthiness of a JavaScript string: the empty string is falsy. -/
def strTruthy (s : String) : Bool := s.data.length != 0

/-- Truthiness of a possibly missing string (null / undefined are falsy). -/
def optTruthy : Option String → Bool
  | none => false
  | some s => strTruthy s

/-- The JavaScript idiom `x || d` for a possibly missing string `x`. -/
def jsStrOr (v : Option String) (d : String) : String :=
  match v with
  | none => d
  | some s => if strTruthy s then s else d

/-- The JavaScript idiom `x || d` for a string already known to be present. -/
def strOr (s d : String) : String := if strTruthy s then s else d

/-- Decimal digit test on characters. -/
def isDigitCh (c : Char) : Bool := decide ('0' ≤ c) && decide (c ≤ '9')

/-- Value of a list of decimal digits. -/
def digitsToNat (cs : List Char) : Nat :=
  cs.foldl (fun a c => a * 10 + (c.toNat - 48)) 0

/-- Model of JavaScript `parseInt` on an optional query-string value: skip
leading spaces, optional sign, then the longest prefix of decimal digits;
`none` models NaN (missing value, or no digits).  Hexadecimal prefixes are not
modelled; no input considered here uses them. -/
def jsParseInt (s : Option String) : Option Int :=
  match s with
  | none => none
  | some str =>
    let cs := str.data.dropWhile (fun c => c = ' ')
    let core : Bool → List Char → Option Int := fun sign cs =>
      let ds := cs.takeWhile isDigitCh
      if ds.isEmpty then none
      else some (if sign then -(digitsToNat ds : Int) else (digitsToNat ds : Int))
    match cs with
    | '-' :: rest => core true rest
    | '+' :: rest => core false rest
    | _ => core false cs

/-- The JavaScript idiom `parseInt(x) || d`: NaN and 0 both fall back to the
default (0 is falsy). -/
def jsNumOr (v : Option Int) (d : Int) : Int :=
  match v with
  | none => d
  | some n => if n = 0 then d else n

/-- Split a character list on a separator (model of `String.split`). -/
def splitOnChar (sep : Char) : List Char → List (List Char)
  | [] => [[]]
  | c :: cs =>
    let rest := splitOnChar sep cs
    if c = sep then [] :: rest
    else match rest with
      | [] => [[c]]
      | seg :: segs => (c :: seg) :: segs

/-- Model of `path.split(sep).pop()`: the last slash-separated segment. -/
def strSegLast (s : String) : String :=
  ⟨(splitOnChar '/' s.data).getLastD []⟩

/-- Character-list starts-with test. -/
def chStartsB : List Char → List Char → Bool
  | [], _ => true
  | _ :: _, [] => false
  | p :: ps, c :: cs => p = c && chStartsB ps cs

/-- Model of `String.startsWith`. -/
def strStarts (s p : String) : Bool := chStartsB p.data s.data

/-- Character-list infix (substring) test. -/
def chInfixB (p : List Char) : List Char → Bool
  | [] => p.isEmpty
  | c :: cs => chStartsB p (c :: cs) || chInfixB p cs

/-- ASCII lower-casing of one character (SQLite LIKE folds ASCII case). -/
def lowerCh (c : Char) : Char :=
  if decide ('A' ≤ c) && decide (c ≤ 'Z') then Char.ofNat (c.toNat + 32) else c

/-- Model of the SQL LIKE predicate with the needle wrapped in percent
wildcards (ASCII case-insensitive substring match, as SQLite LIKE behaves). -/
def likeContains (hay needle : String) : Bool :=
  chInfixB (needle.data.map lowerCh) (hay.data.map lowerCh)

/-- JavaScript whitespace for `String.prototype.trim`. -/
def isJsWs (c : Char) : Bool :=
  c = ' ' || c = '\t' || c = '\n' || c = '\r' || c = Char.ofNat 11 || c = Char.ofNat 12

/-- Model of `s.trim()`: strip leading and trailing whitespace. -/
def trimChars (cs : List Char) : List Char :=
  ((cs.dropWhile isJsWs).reverse.dropWhile isJsWs).reverse

/-- Insert into a list sorted by the boolean comparison `le`. -/
def insSorted (le : α → α → Bool) (x : α) : List α → List α
  | [] => [x]
  | y :: ys => if le x y then x :: y :: ys else y :: insSorted le x ys

/-- Insertion sort by the boolean comparison `le`; models SQL ORDER BY. -/
def sortByB (le : α → α → Bool) : List α → List α
  | [] => []
  | x :: xs => insSorted le x (sortByB le xs)

/-! ## Base64 decoding (model of `atob`)

The worker decodes inline payloads with `atob`.  We model forgiving base64:
strip ASCII whitespace, strip up to two trailing padding characters when the
length is a multiple of four, reject a remaining length congruent to 1 mod 4
or any character outside the base64 alphabet, and otherwise emit the decoded
bytes. -/

/-- Six-bit value of a base64 alphabet character, `none` for anything else. -/
def b64Val (c : Char) : Option Nat :=
  if decide ('A' ≤ c) && decide (c ≤ 'Z') then some (c.toNat - 65)
  else if decide ('a' ≤ c) && decide (c ≤ 'z') then some (c.toNat - 97 + 26)
  else if decide ('0' ≤ c) && decide (c ≤ '9') then some (c.toNat - 48 + 52)
  else if c = '+' then some 62
  else if c = '/' then some 63
  else none

/-- ASCII whitespace, which `atob` ignores. -/
def isB64Ws (c : Char) : Bool :=
  c = ' ' || c = '\t' || c = '\n' || c = '\r' || c = Char.ofNat 12

/-- Strip up to two trailing padding characters when the length is a multiple
of four. -/
def dropTrailingPad (cs : List Char) : List Char :=
  if cs.length % 4 = 0 then
    match cs.reverse with
    | '=' :: '=' :: rest => rest.reverse
    | '=' :: rest => rest.reverse
    | _ => cs
  else cs

/-- Reassemble six-bit groups into bytes (two, three or four groups give one,
two or three bytes; a trailing single group cannot occur on accepted input). -/
def b64Bytes : List Nat → List Nat
  | a :: b :: c :: d :: rest =>
    (a * 4 + b / 16) :: ((b % 16) * 16 + c / 4) :: ((c % 4) * 64 + d) :: b64Bytes rest
  | [a, b] => [a * 4 + b / 16]
  | [a, b, c] => [a * 4 + b / 16, (b % 16) * 16 + c / 4]
  | _ => []

/-- Model of `atob`: `none` is the thrown InvalidCharacterError. -/
def jsAtob (s : String) : Option (List Nat) :=
  let cs := dropTrailingPad (s.data.filter (fun c => !isB64Ws c))
  if cs.length % 4 = 1 then none
  else match cs.mapM b64Val with
    | none => none
    | some vals => some (b64Bytes vals)

/-! ## Data model (schema.sql)

Only the columns the worker reads or writes are carried.  The `reports`
columns `evidence_images`, `assigned_to` and `notes` are never touched by any
handler and are omitted.  CHECK, PRIMARY KEY and UNIQUE constraints of
schema.sql are enforced by the insert operations. -/

/-- One row of the `reports` table. -/
structure Report where
  id : String
  report_id : String
  server_name : String
  ip_address : String
  description : String
  status : String
  priority : String
  platform : String
  created_by : String
  timestamp : Nat
  created_at : Nat
  updated_at : Nat
deriving DecidableEq, Repr

/-- One row of the `images` table. -/
structure Image where
  id : String
  report_id : String
  filename : String
  file_size : Nat
  mime_type : String
  image_data : String
  created_at : Nat
deriving DecidableEq, Repr

/-- The database state: the two tables the claims concern.  The
`system_stats` and `api_logs` tables are only written by fire-and-forget
helpers that no claim observes. -/
structure DB where
  reports : List Report
  images : List Image
deriving DecidableEq, Repr

/-- The CHECK constraint values for `reports.status`. -/
def statusEnum : List String := ["on-progress", "completed", "pending", "cancelled"]

/-- The CHECK constraint values for `reports.priority`. -/
def priorityEnum : List String := ["critical", "high", "medium", "low"]

/-- Whether an INSERT INTO reports satisfies the schema constraints: the two
CHECK constraints, PRIMARY KEY uniqueness of `id` and UNIQUE `report_id`. -/
def reportInsertOk (db : DB) (r : Report) : Bool :=
  statusEnum.contains r.status && priorityEnum.contains r.priority &&
  db.reports.all (fun x => x.id != r.id && x.report_id != r.report_id)

/-- INSERT INTO reports; `none` models the D1 statement throwing on a
constraint violation. -/
def insertReport (db : DB) (r : Report) : Option DB :=
  if reportInsertOk db r then some { db with reports := db.reports ++ [r] }
  else none

/-- INSERT INTO images; the table has a PRIMARY KEY on `id` and no CHECK
constraints.  (The FOREIGN KEY is declared in schema.sql but D1 does not
enforce foreign keys unless the pragma is enabled; the worker checks the
parent row itself on the inline path.) -/
def insertImage (db : DB) (i : Image) : Option DB :=
  if db.images.all (fun x => x.id != i.id) then
    some { db with images := db.images ++ [i] }
  else none

/-! ## Responses and thrown errors -/

/-- Errors thrown by handler code. -/
inductive JsError where
  /-- Evaluation of a free identifier: `name is not defined`. -/
  | referenceError (ident : String)
  /-- An explicit `throw new Error(msg)`. -/
  | jsError (msg : String)
  /-- A catch block that re-throws with a contextual message around the inner
  message (`throw new Error(ctxMsg + ": " + error.message)`). -/
  | rethrown (ctxMsg : String) (inner : JsError)
deriving DecidableEq, Repr

/-- The message carried by a thrown error. -/
def JsError.message : JsError → String
  | .referenceError ident => ident ++ " is not defined"
  | .jsError m => m
  | .rethrown c e => c ++ ": " ++ e.message

/-- Pagination metadata of the list endpoint. -/
structure Meta where
  total : Nat
  limit : Int
  offset : Int
  has_more : Bool
deriving DecidableEq, Repr

/-- One row of the list endpoint: the report plus its image count and the
filename of its earliest image (empty when none). -/
structure PageRow where
  report : Report
  image_count : Nat
  preview_image : String
deriving DecidableEq, Repr

/-- One row of the analytics top-servers aggregate. -/
structure ServerRow where
  server_name : String
  incident_count : Nat
  critical_count : Nat
deriving DecidableEq, Repr

/-- The analytics payload: per-day average resolution minutes, per-day
priority counts (critical, high, medium, low), top servers, hour histogram,
and the period in days. -/
structure AnalyticsData where
  response_times : List (Nat × Option ℚ)
  priority_trends : List (Nat × Nat × Nat × Nat × Nat)
  top_servers : List ServerRow
  hourly_distribution : List (Nat × Nat)
  period_days : Int
deriving DecidableEq, Repr

/-- Response bodies produced by the handlers (constant decorative fields of
the JSON payloads, such as fixed success messages, are elided). -/
inductive RespBody where
  | jsonMsg (success : Bool) (error : String)
  | missingFields (missing : List String)
  | created (data : Report) (report_id : String) (id : String)
  | reportPage (data : List PageRow) (meta : Meta)
  | reportDetail (report : Report) (images : List Image)
  | deletedOk (deleted : Nat)
  | searchResults (query : String) (results : List Report)
  | analytics (data : AnalyticsData)
  | uploaded (id : String) (filename : String)
  | redirectTo (location : String)
  | raw (bytes : List Nat) (contentType : String) (filename : String)
  | serverError (message : String)
deriving DecidableEq, Repr

/-- An HTTP response. -/
structure Response where
  status : Nat
  body : RespBody
deriving DecidableEq, Repr

/-- Result of running a handler body that may throw. -/
inductive Outcome where
  | ok (r : Response)
  | thrown (e : JsError)
deriving DecidableEq, Repr

/-- The top-level fetch catch block: a thrown error becomes a 500 JSON
response carrying the message. -/
def finishOutcome : Outcome → Response
  | .ok r => r
  | .thrown e => ⟨500, .serverError e.message⟩

/-! ## Report handlers -/

/-- The parsed JSON body of a create request; `none` fields are absent JSON
keys. -/
structure CreateBody where
  server_name : Option String := none
  ip_address : Option String := none
  description : Option String := none
  status : Option String := none
  priority : Option String := none
  platform : Option String := none
  created_by : Option String := none
  timestamp : Option Nat := none
deriving DecidableEq, Repr

/-- The required-field presence check of handleCreateReport:
`requiredFields.filter(field => !data[field])`. -/
def missingRequired (d : CreateBody) : List String :=
  (if optTruthy d.server_name then [] else ["server_name"]) ++
  (if optTruthy d.status then [] else ["status"]) ++
  (if optTruthy d.priority then [] else ["priority"])

/-- The row handleCreateReport binds into INSERT INTO reports.  `updated_at`
is not listed in the INSERT and takes the schema default CURRENT_TIMESTAMP,
modelled by the same clock value. -/
def mkReport (d : CreateBody) (genId genRepId : String) (now : Nat) : Report :=
  { id := genId
    report_id := genRepId
    server_name := d.server_name.getD ""
    ip_address := jsStrOr d.ip_address ""
    description := jsStrOr d.description ""
    status := d.status.getD ""
    priority := d.priority.getD ""
    platform := jsStrOr d.platform ""
    created_by := jsStrOr d.created_by "System"
    timestamp := match d.timestamp with
                 | none => now
                 | some t => if t = 0 then now else t
    created_at := now
    updated_at := now }

/-- handleCreateReport (worker lines 382-469).  `body = none` is a JSON parse
failure.  After a successful INSERT the source evaluates
`ctx.waitUntil(updateSystemStats(db))`; `ctx` is a free identifier there (the
fetch parameter `ctx` is not in scope inside this helper), so the line throws
a ReferenceError which the catch block re-throws with context, making the
built 201 response unreachable. -/
def handleCreateReport (body : Option CreateBody) (genId genRepId : String)
    (now : Nat) (db : DB) : DB × Outcome :=
  match body with
  | none => (db, .ok ⟨400, .jsonMsg false "Invalid JSON"⟩)
  | some d =>
    if missingRequired d ≠ [] then
      (db, .ok ⟨400, .missingFields (missingRequired d)⟩)
    else
      let r := mkReport d genId genRepId now
      match insertReport db r with
      | none => (db, .thrown (.rethrown "Failed to create report" (.jsError "Database insertion failed")))
      | some db2 =>
        (db2, .thrown (.rethrown "Failed to create report" (.referenceError "ctx")))

/-- Query parameters of the list endpoint. -/
structure ListQuery where
  limit : Option String := none
  offset : Option String := none
  status : Option String := none
  priority : Option String := none
  search : Option String := none
deriving DecidableEq, Repr

/-- The WHERE clause that handleGetReports builds: equality filters on status
and priority, LIKE filters across server_name, description and report_id. -/
def rowMatches (q : ListQuery) (r : Report) : Bool :=
  (if optTruthy q.status then r.status == q.status.getD "" else true) &&
  (if optTruthy q.priority then r.priority == q.priority.getD "" else true) &&
  (if optTruthy q.search then
      likeContains r.server_name (q.search.getD "") ||
      likeContains r.description (q.search.getD "") ||
      likeContains r.report_id (q.search.getD "")
    else true)

/-- SQLite LIMIT/OFFSET semantics: a negative OFFSET acts as zero, a negative
LIMIT means no limit. -/
def sqlLimitOffset (limit offset : Int) (rows : List α) : List α :=
  let dropped := rows.drop offset.toNat
  if limit < 0 then dropped else dropped.take limit.toNat

/-- The per-row subselects of the list query: image count and the filename of
the earliest image. -/
def pageRowOf (db : DB) (r : Report) : PageRow :=
  let imgs := db.images.filter (fun i => i.report_id == r.id)
  { report := r
    image_count := imgs.length
    preview_image :=
      match sortByB (fun a b => decide (a.created_at ≤ b.created_at)) imgs with
      | [] => ""
      | i :: _ => i.filename }

/-- handleGetReports (worker lines 281-379): parse limit and offset with
`parseInt(x) || default`, filter, ORDER BY created_at DESC, page with the raw
limit and offset, and report pagination metadata with
`has_more = offset + limit < total`. -/
def handleGetReports (q : ListQuery) (db : DB) : Response :=
  let limit := jsNumOr (jsParseInt q.limit) 50
  let offset := jsNumOr (jsParseInt q.offset) 0
  let matched := db.reports.filter (rowMatches q)
  let ordered := sortByB (fun a b : Report => decide (b.created_at ≤ a.created_at)) matched
  let page := (sqlLimitOffset limit offset ordered).map (pageRowOf db)
  let total := matched.length
  ⟨200, .reportPage page
      { total := total, limit := limit, offset := offset
        has_more := decide (offset + limit < (total : Int)) }⟩

/-- handleGetReport (worker lines 472-516): the report with its images
ordered by created_at ascending, or 404. -/
def handleGetReport (id : String) (db : DB) : Response :=
  match db.reports.find? (fun r => r.id == id) with
  | none => ⟨404, .jsonMsg false "Report not found"⟩
  | some r =>
    ⟨200, .reportDetail r
      (sortByB (fun a b : Image => decide (a.created_at ≤ b.created_at))
        (db.images.filter (fun i => i.report_id == id)))⟩

/-- handleDeleteReport (worker lines 519-561).  The DELETE on images runs
first; a failure there is caught and ignored (`imagesDeleteFails` models the
statement throwing).  Then the DELETE on reports runs; zero affected rows
gives 404.  On the success path the source evaluates
`ctx.waitUntil(updateSystemStats(db))` with `ctx` a free identifier, so the
ReferenceError is re-thrown by the catch block and the success response is
unreachable — but both DELETEs have already been applied. -/
def handleDeleteReport (imagesDeleteFails : Bool) (id : String) (db : DB) :
    DB × Outcome :=
  let db1 := if imagesDeleteFails then db
             else { db with images := db.images.filter (fun i => i.report_id != id) }
  let changes := (db1.reports.filter (fun r => r.id == id)).length
  let db2 := { db1 with reports := db1.reports.filter (fun r => r.id != id) }
  if changes = 0 then (db2, .ok ⟨404, .jsonMsg false "Report not found"⟩)
  else (db2, .thrown (.rethrown "Failed to delete report" (.referenceError "ctx")))

/-- handleSearchReports (worker lines 564-609): reject a missing, empty or
trimmed-shorter-than-2 query with 400, otherwise LIKE-match four fields,
ORDER BY created_at DESC, LIMIT 20. -/
def handleSearchReports (q : Option String) (db : DB) : Response :=
  if !optTruthy q || (trimChars (q.getD "").data).length < 2 then
    ⟨400, .jsonMsg false "Search query must be at least 2 characters"⟩
  else
    let query := q.getD ""
    let results :=
      (sortByB (fun a b : Report => decide (b.created_at ≤ a.created_at))
        (db.reports.filter (fun r =>
          likeContains r.server_name query || likeContains r.ip_address query ||
          likeContains r.description query || likeContains r.report_id query))).take 20
    ⟨200, .searchResults query results⟩

/-! ## Analytics (worker lines 721-813) -/

/-- Day index of a clock value (model of `DATE(created_at)`). -/
def dayOf (t : Nat) : Nat := t / 1440

/-- Hour of day of a clock value (model of the strftime hour extraction). -/
def hourOf (t : Nat) : Nat := t % 1440 / 60

/-- The window predicate comparing created_at against DATE(now, -days days):
every timestamp on or after the day `days` before today. -/
def inWindow (nowT : Nat) (days : Int) (r : Report) : Bool :=
  decide ((dayOf r.created_at : Int) ≥ (dayOf nowT : Int) - days)

/-- Distinct day indices of a report list, ascending (GROUP BY date ORDER BY
date). -/
def daysAsc (rs : List Report) : List Nat :=
  sortByB (fun a b => decide (a ≤ b)) ((rs.map (fun r => dayOf r.created_at)).dedup)

/-- The reports of one day. -/
def onDay (rs : List Report) (d : Nat) : List Report :=
  rs.filter (fun r => dayOf r.created_at == d)

/-- SQL AVG over the non-NULL values: NULL (none) when no values remain. -/
def sqlAvg (vals : List Int) : Option ℚ :=
  match vals with
  | [] => none
  | _ => some (((vals.foldl (· + ·) 0 : Int) : ℚ) / (vals.length : ℚ))

/-- The CASE expression of the response-time query: resolution minutes
`(julianday(updated_at) - julianday(created_at)) * 24 * 60` for completed
reports, NULL otherwise. -/
def resolutionVals (rs : List Report) : List Int :=
  rs.filterMap (fun r =>
    if r.status == "completed" then some ((r.updated_at : Int) - (r.created_at : Int))
    else none)

/-- Per-day average resolution minutes over the windowed reports. -/
def respTimesAgg (wr : List Report) : List (Nat × Option ℚ) :=
  (daysAsc wr).map (fun d => (d, sqlAvg (resolutionVals (onDay wr d))))

/-- Count of reports of one priority. -/
def prioCount (rs : List Report) (p : String) : Nat :=
  (rs.filter (fun r => r.priority == p)).length

/-- Per-day priority counts over the windowed reports. -/
def prioTrendsAgg (wr : List Report) : List (Nat × Nat × Nat × Nat × Nat) :=
  (daysAsc wr).map (fun d =>
    (d, prioCount (onDay wr d) "critical", prioCount (onDay wr d) "high",
     prioCount (onDay wr d) "medium", prioCount (onDay wr d) "low"))

/-- The top-servers query of handleGetAnalytics: GROUP BY server_name over
the whole reports table (this query carries no created_at window), ORDER BY
incident_count DESC, LIMIT 10. -/
def topServersAgg (rs : List Report) : List ServerRow :=
  (sortByB (fun a b : ServerRow => decide (b.incident_count ≤ a.incident_count))
    (((rs.map (fun r => r.server_name)).dedup).map (fun s =>
      let srs := rs.filter (fun r => r.server_name == s)
      ⟨s, srs.length, prioCount srs "critical"⟩))).take 10

/-- Hour-of-day histogram over the windowed reports. -/
def hourlyAgg (wr : List Report) : List (Nat × Nat) :=
  (sortByB (fun a b => decide (a ≤ b)) ((wr.map (fun r => hourOf r.created_at)).dedup)).map
    (fun h => (h, (wr.filter (fun r => hourOf r.created_at == h)).length))

/-- The analytics payload assembled by handleGetAnalytics:
`days = parseInt(q) || 30`; three of the four aggregates filter on the
trailing window, the top-servers aggregate does not. -/
def analyticsOf (daysParam : Option String) (nowT : Nat) (db : DB) : AnalyticsData :=
  let days := jsNumOr (jsParseInt daysParam) 30
  let wr := db.reports.filter (inWindow nowT days)
  { response_times := respTimesAgg wr
    priority_trends := prioTrendsAgg wr
    top_servers := topServersAgg db.reports
    hourly_distribution := hourlyAgg wr
    period_days := days }

/-- handleGetAnalytics (worker lines 721-813). -/
def handleGetAnalytics (daysParam : Option String) (nowT : Nat) (db : DB) : Response :=
  ⟨200, .analytics (analyticsOf daysParam nowT db)⟩

/-! ## Evidence handlers (worker lines 815-1012) -/

/-- The parsed JSON body of an inline (base64) upload request. -/
structure UploadBody where
  report_id : Option String := none
  image_data : Option String := none
  filename : Option String := none
  file_size : Option Nat := none
  mime_type : Option String := none
deriving DecidableEq, Repr

/-- A multipart file part (the formData file entry): name, size, declared
content type and opaque binary content. -/
structure FilePart where
  name : String
  size : Nat
  fileType : String
  content : String
deriving DecidableEq, Repr

/-- The transport of an upload request, discriminated on the Content-Type
header as the source does.  `json none` is an unparsable JSON body;
`multipart` fields are `formData.get` results (absent keys are `none`). -/
inductive UploadRequest where
  | json (body : Option UploadBody)
  | multipart (reportId : Option String) (file : Option FilePart)
  | otherContentType
deriving DecidableEq, Repr

/-- The R2 object store: stored (key, content) pairs in put order. -/
abbrev Bucket := List (String × String)

/-- The filename sanitiser of the multipart branch: every character outside
letters, digits, dot and dash becomes an underscore. -/
def sanitizeCh (c : Char) : Char :=
  if (decide ('a' ≤ c) && decide (c ≤ 'z')) ||
     (decide ('A' ≤ c) && decide (c ≤ 'Z')) ||
     (decide ('0' ≤ c) && decide (c ≤ '9')) || c = '.' || c = '-' then c
  else '_'

/-- The R2 object key built by the multipart branch:
`reportId + "_" + Date.now() + "_" + sanitised file name`. -/
def r2Key (reportId : String) (nowMs : Nat) (fileName : String) : String :=
  reportId ++ "_" ++ toString nowMs ++ "_" ++ ⟨fileName.data.map sanitizeCh⟩

/-- handleUploadImage (worker lines 816-957), returning the new database, the
new bucket state and the outcome.

Inline (JSON) branch: field presence check, parent-report existence check,
then INSERT INTO images with the payload exactly as sent — the branch
enforces no payload size ceiling and never truncates.

Multipart branch: 501 when no bucket is configured, field presence check,
`r2Bucket.put` of the binary, then the source evaluates `env.R2_ACCOUNT_ID`
with `env` a free identifier (the fetch parameter `env` is not in scope in
this helper), so a ReferenceError is thrown and re-thrown by the catch block:
the metadata INSERT and the 200 response are unreachable, and no report
existence check occurs anywhere on this path. -/
def handleUploadImage (req : UploadRequest) (r2 : Option Bucket)
    (genImageId : String) (nowMs now : Nat) (db : DB) :
    DB × Option Bucket × Outcome :=
  match req with
  | .json none => (db, r2, .ok ⟨400, .jsonMsg false "Invalid JSON"⟩)
  | .json (some d) =>
    if !optTruthy d.report_id || !optTruthy d.image_data || !optTruthy d.filename then
      (db, r2, .ok ⟨400, .jsonMsg false "Missing required fields: report_id, image_data, filename"⟩)
    else
      match db.reports.find? (fun r => r.id == d.report_id.getD "") with
      | none => (db, r2, .ok ⟨404, .jsonMsg false "Report not found"⟩)
      | some _ =>
        let img : Image :=
          { id := genImageId
            report_id := d.report_id.getD ""
            filename := d.filename.getD ""
            file_size := d.file_size.getD 0
            mime_type := jsStrOr d.mime_type "image/png"
            image_data := d.image_data.getD ""
            created_at := now }
        match insertImage db img with
        | none => (db, r2, .thrown (.rethrown "Upload failed" (.jsError "Failed to save image")))
        | some db2 => (db2, r2, .ok ⟨200, .uploaded genImageId (d.filename.getD "")⟩)
  | .multipart reportId file =>
    match r2 with
    | none => (db, r2, .ok ⟨501, .jsonMsg false "R2 bucket not configured"⟩)
    | some bucket =>
      if !optTruthy reportId || file.isNone then
        (db, some bucket, .ok ⟨400, .jsonMsg false "Missing required fields: report_id, file"⟩)
      else
        let f := file.getD ⟨"", 0, "", ""⟩
        let key := r2Key (reportId.getD "") nowMs f.name
        (db, some (bucket ++ [(key, f.content)]),
          .thrown (.rethrown "Upload failed" (.referenceError "env")))
  | .otherContentType =>
    (db, r2, .ok ⟨415, .jsonMsg false "Unsupported content type. Use application/json or multipart/form-data"⟩)

/-- The expression selecting the base64 text of an inline payload:
`image_data.split(',')[1] || image_data` (the second comma-separated chunk
when present and non-empty, otherwise the whole string). -/
def inlineB64 (s : String) : String :=
  match (splitOnChar ',' s.data).get? 1 with
  | none => s
  | some t => if t.length = 0 then s else ⟨t⟩

/-- handleGetImage (worker lines 960-1012): 404 when no row; redirect when
the stored payload starts with `http`; otherwise decode the inline payload
with `atob` and serve the bytes under the recorded mime type (default
`image/png`), or 400 when decoding throws; 404 when the stored payload is
empty. -/
def handleGetImage (id : String) (db : DB) : Response :=
  match db.images.find? (fun i => i.id == id) with
  | none => ⟨404, .jsonMsg false "Image not found"⟩
  | some img =>
    if strTruthy img.image_data && strStarts img.image_data "http" then
      ⟨302, .redirectTo img.image_data⟩
    else if strTruthy img.image_data then
      match jsAtob (inlineB64 img.image_data) with
      | some bytes => ⟨200, .raw bytes (strOr img.mime_type "image/png") img.filename⟩
      | none => ⟨400, .jsonMsg false "Invalid image data"⟩
    else ⟨404, .jsonMsg false "No image data available"⟩

/-! ## Routing (worker fetch, lines 92-156)

The fetch switch tests its cases in source order; the first true case wins.
The single-report GET case (path starts with /api/reports/ and method GET)
precedes the search case (path equals /api/reports/search and method GET). -/

/-- The dispatch targets of the fetch switch. -/
inductive Route where
  | health
  | listReports
  | createReport
  | getReport (id : String)
  | deleteReport (id : String)
  | searchReports
  | stats
  | analytics
  | upload
  | getImage (id : String)
  | frontend
  | apiDocs
  | fallback
deriving DecidableEq, Repr

/-- The fetch switch, in source case order. -/
def route (method path : String) : Route :=
  if path = "/api/health" ∧ method = "GET" then .health
  else if path = "/api/reports" ∧ method = "GET" then .listReports
  else if path = "/api/reports" ∧ method = "POST" then .createReport
  else if strStarts path "/api/reports/" ∧ method = "GET" then .getReport (strSegLast path)
  else if strStarts path "/api/reports/" ∧ method = "DELETE" then .deleteReport (strSegLast path)
  else if path = "/api/reports/search" ∧ method = "GET" then .searchReports
  else if path = "/api/stats" ∧ method = "GET" then .stats
  else if path = "/api/analytics" ∧ method = "GET" then .analytics
  else if path = "/api/upload" ∧ method = "POST" then .upload
  else if strStarts path "/api/images/" then .getImage (strSegLast path)
  else if path = "/" ∨ path = "/index.html" then .frontend
  else if path = "/api.html" then .apiDocs
  else .fallback

/-- Whether a route is the search dispatch target. -/
def isSearchRoute : Route → Bool
  | .searchReports => true
  | _ => false

/-! ## Observation helpers and concrete fixtures -/

/-- The limit recorded in the pagination metadata of a list response. -/
def Response.metaLimit : Response → Int
  | ⟨_, .reportPage _ m⟩ => m.limit
  | _ => 0

/-- The offset recorded in the pagination metadata of a list response. -/
def Response.metaOffset : Response → Int
  | ⟨_, .reportPage _ m⟩ => m.offset
  | _ => 0

/-- The number of data rows of a list response. -/
def Response.pageLen : Response → Nat
  | ⟨_, .reportPage d _⟩ => d.length
  | _ => 0

/-- A sample report row used by concrete instances. -/
def sampleReport : Report :=
  { id := "rep_1", report_id := "REP-2024-001", server_name := "WEB-SVR-01"
    ip_address := "192.168.1.10", description := "Server overload"
    status := "on-progress", priority := "high", platform := "Zabbix"
    created_by := "System", timestamp := 500, created_at := 500, updated_at := 500 }

/-- A sample evidence row attached to `sampleReport`, with an inline base64
payload. -/
def sampleImage : Image :=
  { id := "img_1", report_id := "rep_1", filename := "shot.png"
    file_size := 3, mime_type := "image/png", image_data := "AAAA"
    created_at := 600 }

/-- A second sample evidence row attached to `sampleReport`. -/
def sampleImage2 : Image :=
  { id := "img_2", report_id := "rep_1", filename := "shot2.png"
    file_size := 1, mime_type := "image/jpeg", image_data := "QQ=="
    created_at := 700 }

/-- A database with one report and its two evidence rows. -/
def sampleDB : DB := { reports := [sampleReport], images := [sampleImage, sampleImage2] }

/-- A valid create body (the spec scenario input). -/
def validCreateBody : CreateBody :=
  { server_name := some "WEB-01", status := some "pending", priority := some "high" }

/-- A create body whose status is outside the CHECK enum. -/
def archivedCreateBody : CreateBody :=
  { server_name := some "WEB-01", status := some "archived", priority := some "high" }

/-- An inline payload one byte larger than a 1 MiB ceiling. -/
def bigPayload : String := ⟨List.replicate (1024 * 1024 + 1) 'A'⟩

/-- An upload body carrying the oversized inline payload for `sampleReport`. -/
def bigUploadBody : UploadBody :=
  { report_id := some "rep_1", image_data := some bigPayload
    filename := some "huge.png", file_size := some 1048577
    mime_type := some "image/png" }

/-- A list query carrying a negative limit parameter. -/
def negLimitQuery : ListQuery := { limit := some "-5" }

/-- A completed critical report created on day 0 (clock 0) and resolved 125
minutes later, far outside a 30-day window ending on day 100. -/
def staleReport : Report :=
  { id := "rep_old", report_id := "REP-2020-001", server_name := "SRV-1"
    ip_address := "", description := "", status := "completed"
    priority := "critical", platform := "", created_by := "System"
    timestamp := 0, created_at := 0, updated_at := 125 }

/-- The character data of a constructed string. -/
theorem string_data_mk (l : List Char) : (String.mk l).data = l := rfl

/-- The length of the oversized payload. -/
theorem bigPayload_length : bigPayload.data.length = 1048577 := by
  unfold bigPayload
  rw [string_data_mk, List.length_replicate]

/-- The oversized payload is a truthy JavaScript string. -/
theorem bigPayload_truthy : strTruthy bigPayload = true := by
  simp only [strTruthy, bne_iff_ne, ne_eq, bigPayload_length]
  decide

/-- Length is invariant under sorted insertion. -/
theorem insSorted_length (le : α → α → Bool) (x : α) (l : List α) :
    (insSorted le x l).length = l.length + 1 := by
  induction l with
  | nil => rfl
  | cons y ys ih =>
    simp only [insSorted]
    split
    · simp
    · simp [ih]

/-- Sorting preserves length. -/
theorem sortByB_length (le : α → α → Bool) (l : List α) :
    (sortByB le l).length = l.length := by
  induction l with
  | nil => rfl
  | cons x xs ih => simp [sortByB, insSorted_length, ih]

/-! ## Claims -/

/-- C1: a Create request whose JSON body contains server_name, status and
priority does persist a report row with the generated id and report_id — but
the handler then evaluates `ctx.waitUntil` with `ctx` out of scope, so the
request is answered 500, not 201 with the persisted row: evaluation of the
code at the failing input `{server_name: WEB-01, status: pending,
priority: high}` on an empty store. -/
theorem c1_create_persists_but_500 :
    handleCreateReport (some validCreateBody) "rep_x1" "REP-2026-0001" 100 ⟨[], []⟩ =
      ({ reports := [mkReport validCreateBody "rep_x1" "REP-2026-0001" 100], images := [] },
       .thrown (.rethrown "Failed to create report" (.referenceError "ctx"))) ∧
    (mkReport validCreateBody "rep_x1" "REP-2026-0001" 100).id = "rep_x1" ∧
    (mkReport validCreateBody "rep_x1" "REP-2026-0001" 100).report_id = "REP-2026-0001" ∧
    (mkReport validCreateBody "rep_x1" "REP-2026-0001" 100).server_name = "WEB-01" ∧
    (mkReport validCreateBody "rep_x1" "REP-2026-0001" 100).status = "pending" ∧
    (mkReport validCreateBody "rep_x1" "REP-2026-0001" 100).priority = "high" ∧
    (finishOutcome (handleCreateReport (some validCreateBody) "rep_x1" "REP-2026-0001" 100 ⟨[], []⟩).2).status = 500 := by
  decide

/-- C2 counterexample: Create with status `archived` (all required fields
present) persists no row, but the response has HTTP status 500, not the 400
ValidationError the claim states: the handler checks only field presence and
the database CHECK constraint failure surfaces as a thrown error. -/
theorem c2_counterexample :
    (handleCreateReport (some archivedCreateBody) "rep_x2" "REP-2026-0002" 100 ⟨[], []⟩).1 = ⟨[], []⟩ ∧
    (finishOutcome (handleCreateReport (some archivedCreateBody) "rep_x2" "REP-2026-0002" 100 ⟨[], []⟩).2).status = 500 := by
  decide

/-- C2 amended: Create with a status or priority outside the enumerated
values (and the required fields present) persists no report row; the insert
is rejected by the schema CHECK constraint and the handler surfaces the
failure as a thrown persistence error, answered 500 — not as a 400
ValidationError. -/
theorem c2_enum_rejected_as_500 (d : CreateBody) (g1 g2 : String) (now : Nat) (db : DB)
    (hmiss : missingRequired d = [])
    (hbad : statusEnum.contains (d.status.getD "") = false ∨
            priorityEnum.contains (d.priority.getD "") = false) :
    (handleCreateReport (some d) g1 g2 now db).1 = db ∧
    (handleCreateReport (some d) g1 g2 now db).2 =
      .thrown (.rethrown "Failed to create report" (.jsError "Database insertion failed")) ∧
    (finishOutcome (handleCreateReport (some d) g1 g2 now db).2).status = 500 := by
  have hstat : (mkReport d g1 g2 now).status = d.status.getD "" := rfl
  have hprio : (mkReport d g1 g2 now).priority = d.priority.getD "" := rfl
  have hok : reportInsertOk db (mkReport d g1 g2 now) = false := by
    unfold reportInsertOk
    rw [hstat, hprio]
    rcases hbad with h | h
    · rw [h, Bool.false_and, Bool.false_and]
    · rw [h, Bool.and_false, Bool.false_and]
  simp only [handleCreateReport, hmiss, ne_eq, not_true_eq_false, if_false,
    insertReport, hok, if_false, finishOutcome]
  exact ⟨rfl, rfl, rfl⟩

/-- C2 witness: the amended theorem applied to the `archived` body over the
sample store. -/
theorem c2_witness :
    missingRequired archivedCreateBody = [] ∧
    statusEnum.contains (archivedCreateBody.status.getD "") = false ∧
    (handleCreateReport (some archivedCreateBody) "rep_w2" "REP-W-0002" 7 sampleDB).1 = sampleDB :=
  ⟨by decide, by decide,
   (c2_enum_rejected_as_500 archivedCreateBody "rep_w2" "REP-W-0002" 7 sampleDB
     (by decide) (Or.inl (by decide))).1⟩

/-- Shared helper: the inline (JSON) upload branch succeeds for any payload
whatsoever once the three required fields are present, the parent report
exists and the generated image id is fresh — the payload is stored verbatim.
No size check appears anywhere on this path. -/
theorem uploadInline_ok (d : UploadBody) (r2 : Option Bucket) (gid : String)
    (nowMs now : Nat) (db : DB)
    (h1 : optTruthy d.report_id = true) (h2 : optTruthy d.image_data = true)
    (h3 : optTruthy d.filename = true)
    (h4 : (db.reports.find? (fun r => r.id == d.report_id.getD "")).isSome = true)
    (h5 : db.images.all (fun x => x.id != gid) = true) :
    handleUploadImage (.json (some d)) r2 gid nowMs now db =
      ({ db with images := db.images ++
          [{ id := gid, report_id := d.report_id.getD "",
             filename := d.filename.getD "", file_size := d.file_size.getD 0,
             mime_type := jsStrOr d.mime_type "image/png",
             image_data := d.image_data.getD "", created_at := now }] },
       r2, .ok ⟨200, .uploaded gid (d.filename.getD "")⟩) := by
  obtain ⟨r, hr⟩ := Option.isSome_iff_exists.mp h4
  simp only [handleUploadImage, h1, h2, h3, Bool.not_true, Bool.false_or, if_false,
    hr, insertImage, h5, if_true]
  rfl

/-- C3 counterexample: an inline upload whose payload is one byte over a
1 MiB ceiling succeeds with 200 and persists the Evidence row, payload
stored in full — no PayloadTooLarge, no rejection, no truncation. -/
theorem c3_counterexample :
    bigPayload.data.length = 1048577 ∧ 1048576 < bigPayload.data.length ∧
    handleUploadImage (.json (some bigUploadBody)) none "img_big" 5 5 ⟨[sampleReport], []⟩ =
      (⟨[sampleReport],
        [{ id := "img_big", report_id := "rep_1", filename := "huge.png",
           file_size := 1048577, mime_type := "image/png",
           image_data := bigPayload, created_at := 5 }]⟩,
       none, .ok ⟨200, .uploaded "img_big" "huge.png"⟩) := by
  refine ⟨bigPayload_length, ?_, ?_⟩
  · rw [bigPayload_length]; decide
  · have h := uploadInline_ok bigUploadBody none "img_big" 5 5 ⟨[sampleReport], []⟩
      (by decide) (by exact bigPayload_truthy) (by decide) (by decide) (by decide)
    rw [h]; rfl

/-- C3 amended: the inline upload path enforces no size ceiling at all — for
every inline payload (of any size) with the required fields present, an
existing parent report and a fresh image id, the upload succeeds with 200 and
the Evidence row is persisted carrying the payload verbatim. -/
theorem c3_inline_no_size_ceiling (d : UploadBody) (r2 : Option Bucket) (gid : String)
    (nowMs now : Nat) (db : DB)
    (h1 : optTruthy d.report_id = true) (h2 : optTruthy d.image_data = true)
    (h3 : optTruthy d.filename = true)
    (h4 : (db.reports.find? (fun r => r.id == d.report_id.getD "")).isSome = true)
    (h5 : db.images.all (fun x => x.id != gid) = true) :
    (handleUploadImage (.json (some d)) r2 gid nowMs now db).2.2 =
      .ok ⟨200, .uploaded gid (d.filename.getD "")⟩ ∧
    (handleUploadImage (.json (some d)) r2 gid nowMs now db).1.images =
      db.images ++
        [{ id := gid, report_id := d.report_id.getD "",
           filename := d.filename.getD "", file_size := d.file_size.getD 0,
           mime_type := jsStrOr d.mime_type "image/png",
           image_data := d.image_data.getD "", created_at := now }] := by
  rw [uploadInline_ok d r2 gid nowMs now db h1 h2 h3 h4 h5]
  exact ⟨rfl, rfl⟩

/-- C3 witness: the amended theorem at a small concrete inline upload over
the sample store. -/
theorem c3_witness :
    optTruthy (some "rep_1") = true ∧
    (handleUploadImage
      (.json (some { report_id := some "rep_1", image_data := some "QUJD",
                     filename := some "w.png" })) none "img_w3" 9 9 sampleDB).2.2 =
      .ok ⟨200, .uploaded "img_w3" "w.png"⟩ :=
  ⟨by decide,
   (c3_inline_no_size_ceiling
     { report_id := some "rep_1", image_data := some "QUJD", filename := some "w.png" }
     none "img_w3" 9 9 sampleDB
     (by decide) (by decide) (by decide) (by decide) (by decide)).1⟩

set_option maxHeartbeats 2000000 in
/-- Shared helper: the search case of the fetch switch is dead — whenever its
condition holds, the earlier single-report GET case has already matched. -/
theorem route_never_search (m p : String) : isSearchRoute (route m p) = false := by
  unfold route
  split_ifs with h1 h2 h3 h4 h5 h6 h7 h8 h9 h10 h11 h12 <;>
    first
    | rfl
    | (obtain ⟨hp, hm⟩ := h6
       subst hp; subst hm
       exact absurd ⟨by decide, rfl⟩ h4)

/-- C4: no request at all is ever dispatched to the search handler — the
single-report GET case (path starts with /api/reports/, method GET) precedes
the search case in the fetch switch and shadows it.  `GET /api/reports/search` is
dispatched to the single-report handler with id `search`, which answers 404
against a store holding no report with that id, while the (dead) search
handler would have answered the claimed 400 for a one-character query. -/
theorem c4_search_route_shadowed :
    (∀ method path, isSearchRoute (route method path) = false) ∧
    route "GET" "/api/reports/search" = .getReport "search" ∧
    handleGetReport "search" sampleDB = ⟨404, .jsonMsg false "Report not found"⟩ ∧
    handleSearchReports (some "x") sampleDB =
      ⟨400, .jsonMsg false "Search query must be at least 2 characters"⟩ :=
  ⟨route_never_search, by decide, by decide, by decide⟩

/-- Shared helper: when a report with the given id exists, handleDeleteReport
deletes the matching image rows (unless that statement fails, in which case
they are kept), deletes the report, and then throws on the out-of-scope
`ctx`. -/
theorem deleteReport_pos (db : DB) (id : String) (ff : Bool)
    (h : (db.reports.filter (fun r => r.id == id)).length ≠ 0) :
    handleDeleteReport ff id db =
      ({ reports := db.reports.filter (fun r => r.id != id),
         images := if ff then db.images
                   else db.images.filter (fun i => i.report_id != id) },
       .thrown (.rethrown "Failed to delete report" (.referenceError "ctx"))) := by
  cases ff <;> simp only [handleDeleteReport, if_true, if_false, Bool.false_eq_true,
    ite_false, ite_true, h, if_neg h]

/-- Shared helper: when no report with the given id exists, handleDeleteReport
answers 404. -/
theorem deleteReport_neg (db : DB) (id : String) (ff : Bool)
    (h : (db.reports.filter (fun r => r.id == id)).length = 0) :
    (handleDeleteReport ff id db).2 = .ok ⟨404, .jsonMsg false "Report not found"⟩ := by
  cases ff <;> simp only [handleDeleteReport, Bool.false_eq_true, ite_false, ite_true,
    h, if_pos h]

/-- Shared helper: a report-id match test never survives the complementary
filter. -/
theorem filter_id_after_ne (l : List Image) (id : String) :
    (l.filter (fun i => i.report_id != id)).filter (fun i => i.report_id == id) = [] := by
  rw [List.filter_eq_nil_iff]
  intro x hx
  have hne := (List.mem_filter.mp hx).2
  simp only [bne_iff_ne, ne_eq] at hne
  simp [hne]

/-- Shared helper: an id match test never survives the complementary filter on
reports. -/
theorem filter_rid_after_ne (l : List Report) (id : String) :
    (l.filter (fun r => r.id != id)).filter (fun r => r.id == id) = [] := by
  rw [List.filter_eq_nil_iff]
  intro x hx
  have hne := (List.mem_filter.mp hx).2
  simp only [bne_iff_ne, ne_eq] at hne
  simp [hne]

/-- Shared helper: a present id makes the match filter non-empty. -/
theorem filter_len_ne_zero_of_find (l : List Report) (id : String)
    (h : (l.find? (fun r => r.id == id)).isSome = true) :
    (l.filter (fun r => r.id == id)).length ≠ 0 := by
  obtain ⟨x, hx, hpx⟩ := List.find?_isSome.mp h
  intro h0
  rw [List.length_eq_zero, List.filter_eq_nil_iff] at h0
  exact absurd hpx (h0 x hx)

/-- C5: deleting an existing report removes every evidence row of that report
and the report itself, after which Get answers 404; deleting a missing id
answers 404; and a failure of the evidence DELETE does not abort the deletion
of the report itself. -/
theorem c5_delete_cascades (db : DB) (id : String) (ff : Bool) :
    ((db.reports.find? (fun r => r.id == id)).isSome = true →
      (handleDeleteReport false id db).1.images.filter (fun i => i.report_id == id) = [] ∧
      (handleDeleteReport false id db).1.reports.filter (fun r => r.id == id) = [] ∧
      handleGetReport id (handleDeleteReport false id db).1 =
        ⟨404, .jsonMsg false "Report not found"⟩) ∧
    ((db.reports.find? (fun r => r.id == id)).isSome = false →
      (handleDeleteReport ff id db).2 = .ok ⟨404, .jsonMsg false "Report not found"⟩) ∧
    ((db.reports.find? (fun r => r.id == id)).isSome = true →
      (handleDeleteReport true id db).1.reports.filter (fun r => r.id == id) = []) := by
  refine ⟨?_, ?_, ?_⟩
  · intro h
    have hlen := filter_len_ne_zero_of_find db.reports id h
    rw [deleteReport_pos db id false hlen]
    refine ⟨filter_id_after_ne db.images id, filter_rid_after_ne db.reports id, ?_⟩
    unfold handleGetReport
    have hnone : (db.reports.filter (fun r => r.id != id)).find? (fun r => r.id == id) = none := by
      rw [List.find?_eq_none]
      intro x hx
      have hne := (List.mem_filter.mp hx).2
      simp only [bne_iff_ne, ne_eq] at hne
      simp [hne]
    simp only [hnone]
  · intro h
    apply deleteReport_neg
    rw [List.length_eq_zero, List.filter_eq_nil_iff]
    have hn : db.reports.find? (fun r => r.id == id) = none := by
      rcases hfind : db.reports.find? (fun r => r.id == id) with _ | v
      · exact hfind
      · rw [hfind] at h; simp at h
    exact List.find?_eq_none.mp hn
  · intro h
    have hlen := filter_len_ne_zero_of_find db.reports id h
    rw [deleteReport_pos db id true hlen]
    exact filter_rid_after_ne db.reports id

/-- C5 witness: the theorem applied to the sample store, whose single report
owns two evidence rows. -/
theorem c5_delete_witness :
    (sampleDB.reports.find? (fun r => r.id == "rep_1")).isSome = true ∧
    (handleDeleteReport false "rep_1" sampleDB).1.images.filter
      (fun i => i.report_id == "rep_1") = [] ∧
    handleGetReport "rep_1" (handleDeleteReport false "rep_1" sampleDB).1 =
      ⟨404, .jsonMsg false "Report not found"⟩ :=
  ⟨by decide,
   ((c5_delete_cascades sampleDB "rep_1" false).1 (by decide)).1,
   ((c5_delete_cascades sampleDB "rep_1" false).1 (by decide)).2.2⟩

/-- C6 counterexample: `limit=-5` is neither rejected nor clamped to the
default 50 — the request succeeds with 200, the raw value `-5` is used as the
SQL LIMIT (returning every row) and is echoed in the metadata, and
`has_more` is computed from the raw negative value
(`0 + (-5) < 1` gives true even though every row was returned). -/
theorem c6_counterexample :
    handleGetReports negLimitQuery sampleDB =
      ⟨200, .reportPage [pageRowOf sampleDB sampleReport]
        { total := 1, limit := -5, offset := 0, has_more := true }⟩ := by
  decide

/-- C6 amended: List defaults the limit to 50 (and the offset to 0) when the
parameter is missing or non-numeric, but a negative numeric limit is passed
through raw: it reaches the query (where SQLite treats a negative LIMIT as
unbounded, so every matching row is returned) and the response metadata. -/
theorem c6_limit_handling (q : ListQuery) (db : DB) :
    (jsParseInt q.limit = none →
      (handleGetReports q db).metaLimit = 50 ∧ (handleGetReports q db).pageLen ≤ 50) ∧
    (jsParseInt q.offset = none → (handleGetReports q db).metaOffset = 0) ∧
    (∀ n : Int, jsParseInt q.limit = some n → n < 0 → q.offset = none →
      (handleGetReports q db).metaLimit = n ∧
      (handleGetReports q db).pageLen = (db.reports.filter (rowMatches q)).length) := by
  refine ⟨?_, ?_, ?_⟩
  · intro h
    constructor
    · simp only [handleGetReports, h, jsNumOr, Response.metaLimit]
    · simp only [handleGetReports, h, jsNumOr, Response.pageLen, sqlLimitOffset,
        List.length_map]
      rw [if_neg (by norm_num)]
      exact (List.length_take_le _ _).trans (by norm_num)
  · intro h
    simp only [handleGetReports, h, jsNumOr, Response.metaOffset]
  · intro n h hneg hoff
    have hne : n ≠ 0 := by omega
    constructor
    · simp only [handleGetReports, h, jsNumOr, if_neg hne, Response.metaLimit]
    · have hoff2 : jsParseInt q.offset = none := by rw [hoff]; rfl
      simp only [handleGetReports, h, hoff2, jsNumOr, if_neg hne,
        Response.pageLen, sqlLimitOffset, if_pos hneg, List.length_map,
        Int.toNat_zero, List.drop_zero]
      exact sortByB_length _ _

/-- C6 witness: the amended theorem at a query with no limit parameter over
the sample store. -/
theorem c6_witness :
    jsParseInt (none : Option String) = none ∧
    (handleGetReports ⟨none, none, none, none, none⟩ sampleDB).metaLimit = 50 :=
  ⟨rfl, ((c6_limit_handling ⟨none, none, none, none, none⟩ sampleDB).1 rfl).1⟩

/-- C7 counterexample: with a single report forty-odd days outside the
30-day window, the three windowed aggregates are empty but the top-servers
aggregate still counts it — the top-servers query carries no window filter,
so not every aggregate is restricted to the trailing days window. -/
theorem c7_counterexample :
    inWindow (1440 * 100) 30 staleReport = false ∧
    analyticsOf none (1440 * 100) ⟨[staleReport], []⟩ =
      { response_times := [], priority_trends := [], top_servers := [⟨"SRV-1", 1, 1⟩],
        hourly_distribution := [], period_days := 30 } := by
  decide

/-- C7 amended: Analytics defaults days to 30; the per-day resolution
average, per-day priority counts and hour histogram are restricted to the
trailing window (a report outside the window leaves all three unchanged),
the average is `(updated_at - created_at)` in minutes over completed reports
(125 for the concrete resolved report), but the top-10 servers aggregate is
computed over the whole reports table, not the window. -/
theorem c7_analytics_window (daysParam : Option String) (nowT : Nat) (db : DB) (r : Report)
    (hout : inWindow nowT (jsNumOr (jsParseInt daysParam) 30) r = false) :
    (analyticsOf daysParam nowT { db with reports := db.reports ++ [r] }).response_times =
      (analyticsOf daysParam nowT db).response_times ∧
    (analyticsOf daysParam nowT { db with reports := db.reports ++ [r] }).priority_trends =
      (analyticsOf daysParam nowT db).priority_trends ∧
    (analyticsOf daysParam nowT { db with reports := db.reports ++ [r] }).hourly_distribution =
      (analyticsOf daysParam nowT db).hourly_distribution ∧
    (analyticsOf daysParam nowT db).top_servers = topServersAgg db.reports ∧
    (daysParam = none → (analyticsOf daysParam nowT db).period_days = 30) ∧
    respTimesAgg [staleReport] = [(0, some 125)] := by
  have hfil : ({ db with reports := db.reports ++ [r] } : DB).reports.filter
      (inWindow nowT (jsNumOr (jsParseInt daysParam) 30)) =
      db.reports.filter (inWindow nowT (jsNumOr (jsParseInt daysParam) 30)) := by
    show (db.reports ++ [r]).filter _ = _
    rw [List.filter_append]
    simp [hout]
  refine ⟨?_, ?_, ?_, rfl, ?_, ?_⟩
  · simp only [analyticsOf, hfil]
  · simp only [analyticsOf, hfil]
  · simp only [analyticsOf, hfil]
  · intro h; subst h; rfl
  · have h1 : daysAsc [staleReport] = [0] := by decide
    have h2 : resolutionVals (onDay [staleReport] 0) = [125] := by decide
    rw [respTimesAgg, h1, List.map_cons, List.map_nil, h2]
    simp only [sqlAvg, List.foldl_cons, List.foldl_nil, List.length_cons,
      List.length_nil]
    norm_num

/-- C7 witness: the amended theorem at the stale report over an empty store
with the default window. -/
theorem c7_witness :
    inWindow (1440 * 100) (jsNumOr (jsParseInt none) 30) staleReport = false ∧
    (analyticsOf none (1440 * 100) ⟨[], []⟩).period_days = 30 :=
  ⟨by decide,
   (c7_analytics_window none (1440 * 100) ⟨[], []⟩ staleReport (by decide)).2.2.2.2.1 rfl⟩

/-- C8: Evidence Get answers 404 when no row has the id; redirects (302) to
the stored reference when the payload is shaped external (starts with
`http`, the read-time discrimination both the source and the data model
use); otherwise decodes the inline payload and serves the raw bytes under
the recorded mime type (default `image/png`); and answers a client-visible
400 decode error — never the raw undecoded data — when decoding throws. -/
theorem c8_get_image (db : DB) (id : String) :
    (db.images.find? (fun i => i.id == id) = none →
      handleGetImage id db = ⟨404, .jsonMsg false "Image not found"⟩) ∧
    (∀ img, db.images.find? (fun i => i.id == id) = some img →
      (strTruthy img.image_data = true → strStarts img.image_data "http" = true →
        handleGetImage id db = ⟨302, .redirectTo img.image_data⟩) ∧
      (strTruthy img.image_data = true → strStarts img.image_data "http" = false →
        ∀ bs, jsAtob (inlineB64 img.image_data) = some bs →
          handleGetImage id db =
            ⟨200, .raw bs (strOr img.mime_type "image/png") img.filename⟩) ∧
      (strTruthy img.image_data = true → strStarts img.image_data "http" = false →
        jsAtob (inlineB64 img.image_data) = none →
          handleGetImage id db = ⟨400, .jsonMsg false "Invalid image data"⟩)) := by
  constructor
  · intro h
    simp only [handleGetImage, h]
  · intro img himg
    refine ⟨?_, ?_, ?_⟩
    · intro ht hs
      simp only [handleGetImage, himg, ht, hs, Bool.and_self, if_true]
    · intro ht hs bs hdec
      simp only [handleGetImage, himg, ht, hs, Bool.and_false, Bool.false_eq_true,
        if_false, if_true, hdec]
    · intro ht hs hdec
      simp only [handleGetImage, himg, ht, hs, Bool.and_false, Bool.false_eq_true,
        if_false, if_true, hdec]

/-- C8 witness: the theorem applied to the sample inline evidence row, whose
four-character payload decodes to three zero bytes served as `image/png`. -/
theorem c8_witness :
    sampleDB.images.find? (fun i => i.id == "img_1") = some sampleImage ∧
    jsAtob (inlineB64 sampleImage.image_data) = some [0, 0, 0] ∧
    handleGetImage "img_1" sampleDB = ⟨200, .raw [0, 0, 0] "image/png" "shot.png"⟩ :=
  ⟨by decide, by decide,
   (((c8_get_image sampleDB "img_1").2 sampleImage (by decide)).2.1
     (by decide) (by decide) [0, 0, 0] (by decide)).trans (by decide)⟩

/-- C9: after a successful delete of an existing report (report and evidence
rows already removed), the handler evaluates `ctx.waitUntil` with `ctx` not
in scope; the ReferenceError is re-thrown to the top-level handler and the
client receives 500 while the state change stands un-rolled-back — and the
same out-of-scope `ctx` reference follows every successful Create insert. -/
theorem c9_out_of_scope_ctx (db : DB) (id : String)
    (d : CreateBody) (g1 g2 : String) (now : Nat) :
    ((db.reports.find? (fun r => r.id == id)).isSome = true →
      (handleDeleteReport false id db).2 =
        .thrown (.rethrown "Failed to delete report" (.referenceError "ctx")) ∧
      (finishOutcome (handleDeleteReport false id db).2).status = 500 ∧
      (handleDeleteReport false id db).1.reports.filter (fun r => r.id == id) = []) ∧
    (missingRequired d = [] → reportInsertOk db (mkReport d g1 g2 now) = true →
      handleCreateReport (some d) g1 g2 now db =
        ({ db with reports := db.reports ++ [mkReport d g1 g2 now] },
         .thrown (.rethrown "Failed to create report" (.referenceError "ctx"))) ∧
      (finishOutcome (handleCreateReport (some d) g1 g2 now db).2).status = 500) := by
  constructor
  · intro h
    have hlen := filter_len_ne_zero_of_find db.reports id h
    rw [deleteReport_pos db id false hlen]
    exact ⟨rfl, rfl, filter_rid_after_ne db.reports id⟩
  · intro hmiss hok
    have heq : handleCreateReport (some d) g1 g2 now db =
        ({ db with reports := db.reports ++ [mkReport d g1 g2 now] },
         .thrown (.rethrown "Failed to create report" (.referenceError "ctx"))) := by
      simp only [handleCreateReport, hmiss, ne_eq, not_true_eq_false, if_false,
        insertReport, hok, if_true]
    exact ⟨heq, by rw [heq]; rfl⟩

/-- C9 witness: the theorem at the sample store (delete of the existing
report) and a valid create body over the empty store. -/
theorem c9_witness :
    (sampleDB.reports.find? (fun r => r.id == "rep_1")).isSome = true ∧
    (finishOutcome (handleDeleteReport false "rep_1" sampleDB).2).status = 500 ∧
    (finishOutcome (handleCreateReport (some validCreateBody) "rep_w9" "REP-W-0009" 3 ⟨[], []⟩).2).status = 500 :=
  ⟨by decide,
   ((c9_out_of_scope_ctx sampleDB "rep_1" validCreateBody "rep_w9" "REP-W-0009" 3).1
     (by decide)).2.1,
   ((c9_out_of_scope_ctx ⟨[], []⟩ "rep_1" validCreateBody "rep_w9" "REP-W-0009" 3).2
     (by decide) (by decide)).2⟩

/-- C10: a multipart upload with a configured bucket and both fields present
stores the binary in the bucket and then evaluates `env.R2_ACCOUNT_ID` with
`env` not in scope: the ReferenceError is re-thrown, the client receives
500, no Evidence row is persisted (the stored object is orphaned in the
bucket), and — the result holding for every database state alike — the
parent report is never looked up on this path. -/
theorem c10_out_of_scope_env (db : DB) (bucket : Bucket) (rid : String)
    (f : FilePart) (gid : String) (nowMs now : Nat)
    (hrid : strTruthy rid = true) :
    handleUploadImage (.multipart (some rid) (some f)) (some bucket) gid nowMs now db =
      (db, some (bucket ++ [(r2Key rid nowMs f.name, f.content)]),
       .thrown (.rethrown "Upload failed" (.referenceError "env"))) ∧
    (finishOutcome
      (handleUploadImage (.multipart (some rid) (some f)) (some bucket) gid nowMs now db).2.2).status = 500 := by
  have heq : handleUploadImage (.multipart (some rid) (some f)) (some bucket) gid nowMs now db =
      (db, some (bucket ++ [(r2Key rid nowMs f.name, f.content)]),
       .thrown (.rethrown "Upload failed" (.referenceError "env"))) := by
    simp only [handleUploadImage, optTruthy, hrid, Bool.not_true, Option.isNone_some,
      Bool.or_self, Bool.false_or, Bool.or_false, if_false, Option.getD_some]
    rfl
  exact ⟨heq, by rw [heq]; rfl⟩

/-- C10 witness: the theorem at a concrete multipart upload over the sample
store and an empty bucket. -/
theorem c10_witness :
    strTruthy "rep_1" = true ∧
    (handleUploadImage (.multipart (some "rep_1") (some ⟨"a b.png", 7, "image/png", "BLOB"⟩))
      (some []) "img_m" 4 4 sampleDB).1 = sampleDB :=
  ⟨by decide,
   by rw [(c10_out_of_scope_env sampleDB [] "rep_1" ⟨"a b.png", 7, "image/png", "BLOB"⟩
       "img_m" 4 4 (by decide)).1]⟩
